import Mathlib

/-!
Shallow embedding of the agronet-api repository.

Embedded source files:
- `src/app/exceptions/crud_error.py` — the CRUD error taxonomy
  (`CRUDBaseError` and its subclasses, all FastAPI `HTTPException`s);
- `src/app/db/base.py` — `SQLAlchemyRepository` with `create`,
  `read_by_id`, `read_optional`, `delete`, `update`;
- `src/app/auth.py` — JWT issuance (`create_access_token`) and
  validation (`get_current_username`).

Modelling conventions:
- Python exceptions are modelled with `Except PyExc`; evaluating a
  constructor that itself raises is modelled by propagating the error.
- Python instance-attribute lookup on the CRUD error objects is modelled
  by an explicit attribute record (`CRUDErrAttrs`) whose fields are
  `Option`s: reading an absent attribute raises `AttributeError`.
- The database is a list of rows (`List Row`); a commit either applies
  the fully staged table atomically or fails, leaving the committed
  table unchanged (the transactional engine aborts the transaction), as
  the surrounding SQLAlchemy session guarantees.
- Clock instants and durations are integers (epoch seconds).
-/

namespace AgroNet

/-- A Python exception, restricted to the kinds the embedded code can raise. -/
inductive PyExc where
  /-- `AttributeError` on looking up a missing attribute. -/
  | attributeError (attr : String)
  /-- `TypeError`, e.g. calling a keyword-only constructor with a positional argument. -/
  | typeError (msg : String)
  /-- An error raised by the database driver during flush/commit. -/
  | dbError (msg : String)
  /-- A FastAPI `HTTPException` with status code, detail and headers. -/
  | httpException (statusCode : Nat) (detail : Option String) (headers : List (String × String))
deriving Repr, DecidableEq

/-- `fastapi.status.HTTP_404_NOT_FOUND`. -/
def HTTP_404_NOT_FOUND : Nat := 404

/-- `fastapi.status.HTTP_409_CONFLICT`. -/
def HTTP_409_CONFLICT : Nat := 409

/-- A value stored in an error object's `obj_id` attribute: an integer id
    (as reached from `update`) or a mapped column object such as
    `self.model.id` (as reached from `read_optional`). -/
inductive PyVal where
  | int (n : Int)
  | columnMarker (name : String)
deriving Repr, DecidableEq

/-- `str()` rendering of a `PyVal`, as used by the f-string messages. -/
def PyVal.toStr : PyVal → String
  | .int n => toString n
  | .columnMarker name => name

/-- Instance attributes of a CRUD error object at construction time.
    `crud_error.py` only annotates `username: str` on the class (an
    annotation creates no attribute), and `obj_id` is assigned in the
    subclass `__init__`s; an unassigned attribute reads as absent. -/
structure CRUDErrAttrs where
  username : Option String := none
  obj_id : Option PyVal := none
deriving Repr, DecidableEq

/-- `self.username` lookup: `AttributeError` when never assigned. -/
def CRUDErrAttrs.getUsername (a : CRUDErrAttrs) : Except PyExc String :=
  match a.username with
  | some u => .ok u
  | none => .error (.attributeError "username")

/-- `self.obj_id` lookup: `AttributeError` when never assigned. -/
def CRUDErrAttrs.getObjId (a : CRUDErrAttrs) : Except PyExc PyVal :=
  match a.obj_id with
  | some v => .ok v
  | none => .error (.attributeError "obj_id")

/-- `CRUDUpdateError.erro_message`: reads `self.obj_id`. -/
def updateErroMessage (a : CRUDErrAttrs) : Except PyExc (Option String) := do
  let oid ← a.getObjId
  pure (some ("Not updated, reference object not found, ReferenceObject<" ++ oid.toStr ++ ">"))

/-- `CRUDDeleteError.erro_message`: reads `self.obj_id`. -/
def deleteErroMessage (a : CRUDErrAttrs) : Except PyExc (Option String) := do
  let oid ← a.getObjId
  pure (some ("Not deleted, reference object not found, ReferenceObject<" ++ oid.toStr ++ ">"))

/-- `CRUDSelectError.erro_message`: reads `self.obj_id`. -/
def selectErroMessage (a : CRUDErrAttrs) : Except PyExc (Option String) := do
  let oid ← a.getObjId
  pure (some ("Not selected, reference object not found, ReferenceObject<" ++ oid.toStr ++ ">"))

/-- `CRUDCreateError.erro_message`: constant, reads no attribute. -/
def createErroMessage (_a : CRUDErrAttrs) : Except PyExc (Option String) :=
  pure (some "Conflict, this card number already exists")

/-- The abstract `CRUDBaseError.erro_message`: its body is the bare `...`
    expression, so calling it returns `None`. -/
def baseErroMessage (_a : CRUDErrAttrs) : Except PyExc (Option String) :=
  pure none

/-- `CRUDBaseError.__init__(self, status=404)`: calls
    `super().__init__(status, self.erro_message(), headers=\x7b"X-Username-Error": self.username\x7d)`.
    Arguments are evaluated left to right: first the dispatched
    `erro_message()`, then the `self.username` lookup; either may raise.
    On success the constructed `HTTPException` carries the status, the
    message as detail, and the username header. -/
def crudBaseInit (statusArg : Nat) (msg : CRUDErrAttrs → Except PyExc (Option String))
    (a : CRUDErrAttrs) : Except PyExc PyExc := do
  let m ← msg a
  let u ← a.getUsername
  pure (.httpException statusArg m [("X-Username-Error", u)])

/-- `CRUDUpdateError(obj_id=..., err=...)`: assigns `self.obj_id`, then calls
    `super().__init__()` (default status 404). -/
def CRUDUpdateErrorNew (a0 : CRUDErrAttrs) (oid : PyVal) : Except PyExc PyExc :=
  crudBaseInit HTTP_404_NOT_FOUND updateErroMessage { a0 with obj_id := some oid }

/-- `CRUDDeleteError(obj_id=..., err=...)`: assigns `self.obj_id`, then calls
    `super().__init__()` (default status 404). -/
def CRUDDeleteErrorNew (a0 : CRUDErrAttrs) (oid : PyVal) : Except PyExc PyExc :=
  crudBaseInit HTTP_404_NOT_FOUND deleteErroMessage { a0 with obj_id := some oid }

/-- `CRUDSelectError(obj_id=..., err=...)`: calls `super().__init__()` FIRST
    and only assigns `self.obj_id` afterwards, so `erro_message` runs with
    `obj_id` still unassigned. -/
def CRUDSelectErrorNew (a0 : CRUDErrAttrs) (oid : PyVal) : Except PyExc PyExc := do
  let e ← crudBaseInit HTTP_404_NOT_FOUND selectErroMessage a0
  let _assigned : CRUDErrAttrs := { a0 with obj_id := some oid }
  pure e

/-- `CRUDCreateError(err=...)`: calls `super().__init__(status.HTTP_409_CONFLICT)`. -/
def CRUDCreateErrorNew (a0 : CRUDErrAttrs) : Except PyExc PyExc :=
  crudBaseInit HTTP_409_CONFLICT createErroMessage a0

/-- Direct `CRUDBaseError()` instantiation (the class is not an ABC, so this
    is allowed; the abstract `erro_message` returns `None`). -/
def CRUDBaseErrorNew (a0 : CRUDErrAttrs) : Except PyExc PyExc :=
  crudBaseInit HTTP_404_NOT_FOUND baseErroMessage a0

/-- `SQLAlchemyRepository.__init__(self, db, username)`: stores the session,
    then runs `error = CRUDBaseError()` followed by
    `error.username = username`. The fresh instance has no attributes
    assigned, so the constructor call is evaluated on empty attributes;
    the later assignment targets the discarded local instance. -/
def SQLAlchemyRepository.construct (username : String) : Except PyExc Unit := do
  let _error ← CRUDBaseErrorNew {}
  let _assigned : CRUDErrAttrs := { username := some username }
  pure ()

/-- A persisted model instance: an integer primary key plus the mapped
    column values (modelled as string-valued named fields). -/
structure Row where
  id : Int
  fields : List (String × String)
deriving Repr, DecidableEq

/-- A pydantic schema field: a name, whether the caller explicitly set it,
    and its value when set. Query/update schemas default every field to
    unset. -/
structure SchemaField where
  name : String
  isSet : Bool
  value : String
deriving Repr, DecidableEq

/-- `schema.model_dump(exclude_unset=True)`: the mapping of exactly the
    explicitly set fields. -/
def modelDumpExcludeUnset (q : List SchemaField) : List (String × String) :=
  (q.filter (fun f => f.isSet)).map (fun f => (f.name, f.value))

/-- Column-value lookup on a row. -/
def Row.getField (r : Row) (k : String) : Option String :=
  (r.fields.find? (fun p => p.1 == k)).map (fun p => p.2)

/-- `filter_by(**filters)` semantics: a row matches when every filter pair
    equals the corresponding column value. -/
def rowMatches (filters : List (String × String)) (r : Row) : Bool :=
  filters.all (fun kv => r.getField kv.1 == some kv.2)

/-- Insertion step for ascending sort on the primary key. -/
def insertById (r : Row) : List Row → List Row
  | [] => [r]
  | x :: xs => if r.id ≤ x.id then r :: x :: xs else x :: insertById r xs

/-- `ORDER BY model.id` ascending (stable sort on the primary key). -/
def sortById : List Row → List Row
  | [] => []
  | x :: xs => insertById x (sortById xs)

/-- Executing `select(model).filter_by(**filters).order_by(model.id)`
    against the committed table. -/
def executeSelect (db : List Row) (filters : List (String × String)) : List Row :=
  sortById (db.filter (rowMatches filters))

/-- `raise E(...)`: Python first evaluates the constructor call; if the
    construction itself raises, that exception propagates in place of the
    intended one. -/
def raiseCtor (c : Except PyExc PyExc) : PyExc :=
  match c with
  | .ok e => e
  | .error a => a

/-- `self.db.get(self.model, id)`: point lookup by primary key. -/
def sessionGet (db : List Row) (i : Int) : Option Row :=
  db.find? (fun r => r.id == i)

/-- The SQLAlchemy declarative constructor `self.model(...)` accepts
    keyword column values only; `self.model(res.scalars().all())` passes
    one positional argument and therefore raises `TypeError`. -/
def modelCallPositional (_arg : List Row) : Except PyExc (List Row) :=
  .error (.typeError "init takes 1 positional argument but 2 were given")

/-- The `obj_id=self.model.id` argument in `read_optional`'s
    `CRUDSelectError(...)` call: the mapped primary-key column object. -/
def selectIdMarker : PyVal := .columnMarker "model.id"

/-- `update_schema.model_dump_json` names the bound method object without
    calling it, and a method object has no `items` attribute, so
    `update_schema.model_dump_json.items()` raises `AttributeError`. -/
def modelDumpJsonItems (_update_schema : List SchemaField) : Except PyExc (List (String × String)) :=
  .error (.attributeError "items")

/-- `setattr(db_obj, field, value)` on a mapped instance: replace the
    column value when the column exists, otherwise add the attribute. -/
def setField (fields : List (String × String)) (k v : String) : List (String × String) :=
  if (fields.find? (fun p => p.1 == k)).isSome then
    fields.map (fun p => if p.1 == k then (k, v) else p)
  else
    fields ++ [(k, v)]

/-- Apply a dumped field mapping to a row with repeated `setattr`. -/
def applyFields (r : Row) : List (String × String) → Row
  | [] => r
  | (k, v) :: rest => applyFields { r with fields := setField r.fields k v } rest

/-- `SQLAlchemyRepository.create(obj_new)`: builds
    `self.model(**obj_new.model_dump())`, adds it and commits; on success
    refreshes (the generated primary key `newId` is populated) and returns
    the new instance. On any exception the handler rolls back (committed
    table unchanged) and returns `None` — the error is logged, never
    re-raised. `commitOk` is the outcome of the commit against the engine. -/
def SQLAlchemyRepository.create (db : List Row) (obj_new : List (String × String))
    (newId : Int) (commitOk : Bool) : Except PyExc (List Row × Option Row) :=
  let attempt : Except PyExc (List Row × Row) :=
    let db_obj_new : Row := { id := newId, fields := obj_new }
    let staged := db ++ [db_obj_new]
    if commitOk then .ok (staged, db_obj_new) else .error (.dbError "commit failed")
  match attempt with
  | .ok (db2, r) => .ok (db2, some r)
  | .error _ => .ok (db, none)

/-- `SQLAlchemyRepository.read_by_id(id)`: `self.db.get`, returning the row
    or `None`; never raises. -/
def SQLAlchemyRepository.read_by_id (db : List Row) (i : Int) : Option Row :=
  sessionGet db i

/-- `SQLAlchemyRepository.read_optional(query_schema)`: builds the filtered,
    id-ordered select and executes it. When the result list is empty it
    evaluates `CRUDSelectError(obj_id=self.model.id)` (discarding the value
    if construction were to succeed); then it returns
    `self.model(res.scalars().all())` — a positional constructor call.
    The second `res.scalars().all()` is modelled favourably as yielding the
    same rows again. -/
def SQLAlchemyRepository.read_optional (db : List Row) (query_schema : List SchemaField) :
    Except PyExc (List Row) :=
  let rows := executeSelect db (modelDumpExcludeUnset query_schema)
  if rows.isEmpty then
    (CRUDSelectErrorNew {} selectIdMarker).bind (fun _ => modelCallPositional rows)
  else
    modelCallPositional rows

/-- `SQLAlchemyRepository.delete(id)`: looks up the row; when absent, logs
    and returns `None`. When present, stages the deletion and commits —
    with no `try`/`except`, so a failed commit propagates the driver error
    (the engine aborts the transaction, leaving the committed table
    unchanged; no `rollback()` call is made by this method). -/
def SQLAlchemyRepository.delete (db : List Row) (i : Int) (commitOk : Bool) :
    List Row × Except PyExc (Option Row) :=
  match sessionGet db i with
  | none => (db, .ok none)
  | some res =>
    let staged := db.filter (fun r => r.id != i)
    if commitOk then (staged, .ok (some res))
    else (db, .error (.dbError "commit failed"))

/-- `SQLAlchemyRepository.update(id, update_schema)`: looks up the row and
    raises `CRUDUpdateError(obj_id=id)` when absent (the construction is
    evaluated via `raiseCtor`). Otherwise the `try` block iterates
    `update_schema.model_dump_json.items()` applying `setattr`, then
    commits; any exception in the block is caught, the session is rolled
    back (committed table restored), and `CRUDUpdateError(obj_id=id, err=e)`
    is raised. -/
def SQLAlchemyRepository.update (db : List Row) (i : Int) (update_schema : List SchemaField)
    (commitOk : Bool) : List Row × Except PyExc Row :=
  match sessionGet db i with
  | none => (db, .error (raiseCtor (CRUDUpdateErrorNew {} (.int i))))
  | some db_obj =>
    let attempt : Except PyExc (List Row × Row) := do
      let items ← modelDumpJsonItems update_schema
      let r2 := applyFields db_obj items
      let db2 := db.map (fun x => if x.id == i then r2 else x)
      if commitOk then pure (db2, r2) else .error (.dbError "commit failed")
    match attempt with
    | .ok (db2, r2) => (db2, .ok r2)
    | .error _e => (db, .error (raiseCtor (CRUDUpdateErrorNew {} (.int i))))

/-- Token-service configuration: `secret_key` and `algorithm` from
    `APISettings`, immutable process-wide. -/
structure APISettings where
  secret_key : String
  algorithm : String
deriving Repr, DecidableEq

/-- A JOSE token as handled by `python-jose`: either a well-formed signed
    token (payload claims, expiry, signing key and algorithm) or a
    malformed string. -/
inductive JoseToken where
  | signed (payload : List (String × Option String)) (exp : Int) (key : String) (alg : String)
  | malformed (raw : String)
deriving Repr, DecidableEq

/-- Errors raised by `jose.jwt.decode`. -/
inductive JoseError where
  | expiredSignature
  | jwtError
deriving Repr, DecidableEq

/-- `jwt.encode(to_encode, key, algorithm)`: the claims dict (in which
    `update(\x7b"exp": expire\x7d)` has replaced any prior `exp` entry) is
    signed with the key and algorithm. -/
def jwtEncode (to_encode : List (String × Option String)) (exp : Int) (key alg : String) :
    JoseToken :=
  .signed (to_encode.filter (fun p => p.1 != "exp")) exp key alg

/-- `jwt.decode(token, key, algorithms)` at clock instant `now`: a
    malformed token, a signature made with a different key, or an algorithm
    outside the accepted list raise `JWTError`; after signature
    verification, an `exp` claim strictly in the past raises
    `ExpiredSignatureError`; otherwise the payload is returned. -/
def jwtDecode (tok : JoseToken) (key : String) (algs : List String) (now : Int) :
    Except JoseError (List (String × Option String)) :=
  match tok with
  | .malformed _ => .error .jwtError
  | .signed payload exp k a =>
    if k != key || !(algs.contains a) then .error .jwtError
    else if exp < now then .error .expiredSignature
    else .ok payload

/-- Truthiness of a Python `timedelta | None` under `if expires_delta:`:
    `None` and the zero duration are falsy. -/
def timedeltaTruthy : Option Int → Bool
  | none => false
  | some d => d != 0

/-- `create_access_token(data, expires_delta)` at clock instant `now`:
    copies `data`, sets `exp` to now plus the delta (15 minutes when the
    delta is absent or falsy) and signs with the configured secret and
    algorithm. -/
def create_access_token (data : List (String × Option String)) (expires_delta : Option Int)
    (now : Int) (settings : APISettings) : JoseToken :=
  let expire : Int :=
    if timedeltaTruthy expires_delta then now + expires_delta.getD 0
    else now + 15 * 60
  jwtEncode data expire settings.secret_key settings.algorithm

/-- The `HTTPException` raised by `raise_exception()`: 401, generic
    invalid-credential detail, `token: Bearer` header. -/
def couldNotValidateExc : PyExc :=
  .httpException 401 (some "Could not validate credentials") [("token", "Bearer")]

/-- The `HTTPException` raised by `raise_expired_token()`: 401,
    expired-token detail, no headers. -/
def tokenExpiredExc : PyExc :=
  .httpException 401 (some "Token expired") []

/-- `payload.get("sub", None)`: `None` both when the key is absent and when
    it is present with value `None`. -/
def dictGetSub (payload : List (String × Option String)) : Option String :=
  match payload.find? (fun p => p.1 == "sub") with
  | none => none
  | some p => p.2

/-- Truth value of the literal `\x7b\x7d` in the source condition
    `if username is None or \x7b\x7d:` — an empty dict is falsy. -/
def emptyDictTruthy : Bool := false

/-- `get_current_username(token)` at clock instant `now`: decodes with the
    configured secret and algorithm; `ExpiredSignatureError` becomes the
    expired-token 401, `JWTError` becomes the generic invalid-credential
    401; a payload whose `sub` claim is absent (or `None`) also yields the
    generic invalid-credential 401; otherwise the subject is returned. -/
def get_current_username (token : JoseToken) (now : Int) (settings : APISettings) :
    Except PyExc String :=
  match jwtDecode token settings.secret_key [settings.algorithm] now with
  | .error .expiredSignature => .error tokenExpiredExc
  | .error .jwtError => .error couldNotValidateExc
  | .ok payload =>
    let username := dictGetSub payload
    if username.isNone || emptyDictTruthy then .error couldNotValidateExc
    else .ok (username.getD "")

/-- Decidable equality for `Except`, so closed facts about embedded
    operations can be settled by `decide`. -/
instance {ε α : Type} [DecidableEq ε] [DecidableEq α] : DecidableEq (Except ε α) := fun x y =>
  match x, y with
  | .ok a, .ok b =>
    if h : a = b then isTrue (by rw [h]) else isFalse (by intro hh; cases hh; exact h rfl)
  | .error a, .error b =>
    if h : a = b then isTrue (by rw [h]) else isFalse (by intro hh; cases hh; exact h rfl)
  | .ok _, .error _ => isFalse (fun hh => Except.noConfusion hh)
  | .error _, .ok _ => isFalse (fun hh => Except.noConfusion hh)

/-- The empty query schema: no field set. -/
def q0 : List SchemaField := []

/-- A concrete stored row. -/
def rowNameA : Row := { id := 1, fields := [("name", "a")] }

/-- A concrete stored row. -/
def rowNameX : Row := { id := 1, fields := [("name", "x")] }

/-- A concrete update patch with the `name` field explicitly set. -/
def patchNameB : List SchemaField := [{ name := "name", isSet := true, value := "b" }]

/-- A concrete query schema matching no stored row. -/
def queryNameZ : List SchemaField := [{ name := "name", isSet := true, value := "zzz" }]

/-- Concrete token-service settings. -/
def settings0 : APISettings := { secret_key := "secret", algorithm := "HS256" }

/-! ## Claim theorems -/

/-- C2: for every username, constructing `SQLAlchemyRepository(db, username)`
    raises `AttributeError`: `CRUDBaseError()` is instantiated and its
    `__init__` reads `self.username` (never assigned) while building the
    headers argument, so the constructor fails and no repository operation
    is reachable through it. -/
theorem repository_constructor_always_raises (username : String) :
    SQLAlchemyRepository.construct username = .error (.attributeError "username") := rfl

/-- C2 witness: the constructor raises at the concrete username `"alice"`. -/
theorem repository_constructor_always_raises_witness :
    SQLAlchemyRepository.construct "alice" = .error (.attributeError "username") :=
  repository_constructor_always_raises "alice"

/-- C5: evaluation of every taxonomy-error construction. As the code
    stands (no `username` attribute is ever assigned — the repository
    constructor assigns it on a discarded local `CRUDBaseError`), each
    constructor raises `AttributeError` instead of producing the
    documented `HTTPException`; with a `username` attribute supplied, the
    update error carries status 404 with its operation message and the
    `X-Username-Error` header, and the create error carries status 409,
    while the select error still raises because it reads `obj_id` before
    assignment. -/
theorem crud_taxonomy_errors_unconstructible :
    CRUDUpdateErrorNew {} (.int 123) = .error (.attributeError "username")
    ∧ CRUDDeleteErrorNew {} (.int 123) = .error (.attributeError "username")
    ∧ CRUDCreateErrorNew {} = .error (.attributeError "username")
    ∧ CRUDSelectErrorNew {} (.int 123) = .error (.attributeError "obj_id")
    ∧ CRUDUpdateErrorNew { username := some "john_doe" } (.int 123)
        = .ok (.httpException 404
            (some "Not updated, reference object not found, ReferenceObject<123>")
            [("X-Username-Error", "john_doe")])
    ∧ CRUDCreateErrorNew { username := some "john_doe" }
        = .ok (.httpException 409
            (some "Conflict, this card number already exists")
            [("X-Username-Error", "john_doe")])
    ∧ CRUDSelectErrorNew { username := some "john_doe" } (.int 123)
        = .error (.attributeError "obj_id") :=
  ⟨rfl, rfl, rfl, rfl, rfl, rfl, rfl⟩

/-- C1: `update` on an existing row with a set patch field applies nothing:
    `update_schema.model_dump_json.items()` raises inside the `try` block,
    the session is rolled back (stored row keeps its prior value `"a"`),
    and the attempted `CRUDUpdateError` construction itself raises
    `AttributeError` — the patch is never applied and no updated instance
    is returned. -/
theorem update_applies_no_patch_fields :
    SQLAlchemyRepository.update [rowNameA] 1 patchNameB true
      = ([rowNameA], .error (.attributeError "username")) := rfl

/-- C7: `update` on an id with no matching row leaves the table unchanged
    but fails with `AttributeError` (raised while constructing
    `CRUDUpdateError(obj_id=7)`), not with an `UpdateError` carrying the
    id. -/
theorem update_missing_id_raises_attribute_error :
    SQLAlchemyRepository.update [] 7 patchNameB true
      = ([], .error (.attributeError "username"))
    ∧ ∀ sc d hs, PyExc.attributeError "username" ≠ .httpException sc d hs := by
  refine ⟨rfl, ?_⟩
  intro sc d hs h
  exact PyExc.noConfusion h

/-- C3 counterexample: on an empty table with an empty query, `read_optional`
    does not return the empty result: evaluating
    `CRUDSelectError(obj_id=self.model.id)` itself raises `AttributeError`
    (its message method reads `self.obj_id` before the subclass assigns it),
    and that exception propagates. -/
theorem read_optional_empty_result_not_returned :
    SQLAlchemyRepository.read_optional [] q0 = .error (.attributeError "obj_id")
    ∧ SQLAlchemyRepository.read_optional [] q0 ≠ .ok [] := by
  refine ⟨rfl, ?_⟩
  decide

/-- C3 (amended): whenever the filtered select yields zero rows,
    `read_optional` raises `AttributeError` out of the attempted
    `CRUDSelectError` construction (which reads the not-yet-assigned
    `obj_id` attribute); the empty result is not returned to the caller. -/
theorem read_optional_zero_match_raises (db : List Row) (q : List SchemaField)
    (h : executeSelect db (modelDumpExcludeUnset q) = []) :
    SQLAlchemyRepository.read_optional db q = .error (.attributeError "obj_id") := by
  unfold SQLAlchemyRepository.read_optional
  rw [h]
  rfl

/-- C3 witness: a one-row table with a non-matching query. -/
theorem read_optional_zero_match_raises_witness :
    SQLAlchemyRepository.read_optional [rowNameX] queryNameZ
      = .error (.attributeError "obj_id") :=
  read_optional_zero_match_raises [rowNameX] queryNameZ (by decide)

/-- C8: on a one-row table with an empty query schema the built statement
    does select the row (no filter constraint, ordered by id), but
    `read_optional` never returns the sequence: `self.model(...)` is called
    with a positional argument and raises `TypeError`. -/
theorem read_optional_never_returns_rows :
    executeSelect [rowNameX] (modelDumpExcludeUnset q0) = [rowNameX]
    ∧ SQLAlchemyRepository.read_optional [rowNameX] q0
        = .error (.typeError "init takes 1 positional argument but 2 were given") :=
  ⟨rfl, rfl⟩

/-- C6: when the commit fails, `create` rolls back (committed table
    unchanged) and returns `None`; and for every commit outcome `create`
    returns normally — it never propagates an exception, typed or
    otherwise. -/
theorem create_swallows_persistence_errors (db : List Row)
    (obj_new : List (String × String)) (newId : Int) :
    SQLAlchemyRepository.create db obj_new newId false = .ok (db, none)
    ∧ ∀ commitOk : Bool, ∃ res, SQLAlchemyRepository.create db obj_new newId commitOk = .ok res := by
  refine ⟨rfl, ?_⟩
  intro commitOk
  cases commitOk
  · exact ⟨(db, none), rfl⟩
  · exact ⟨_, rfl⟩

/-- C9: each write operation leaves the committed table either exactly as
    it was (full rollback — for `delete` on a failed commit this is the
    engine aborting the transaction) or with its complete mutation applied
    (full commit): `create` appends the whole new row or nothing, `update`
    never reaches its commit (its `try` block raises first) so the table is
    always unchanged, and `delete` removes the addressed row entirely or
    not at all. -/
theorem write_ops_commit_fully_or_roll_back (db : List Row)
    (obj_new : List (String × String)) (newId i : Int)
    (update_schema : List SchemaField) (commitOk : Bool) :
    (∃ res, SQLAlchemyRepository.create db obj_new newId commitOk = .ok res
      ∧ (res.1 = db ∨ res.1 = db ++ [{ id := newId, fields := obj_new }]))
    ∧ (SQLAlchemyRepository.update db i update_schema commitOk).1 = db
    ∧ ((SQLAlchemyRepository.delete db i commitOk).1 = db
      ∨ (SQLAlchemyRepository.delete db i commitOk).1 = db.filter (fun r => r.id != i)) := by
  refine ⟨?_, ?_, ?_⟩
  · cases commitOk
    · exact ⟨(db, none), rfl, Or.inl rfl⟩
    · exact ⟨_, rfl, Or.inr rfl⟩
  · unfold SQLAlchemyRepository.update
    cases h : sessionGet db i with
    | none => rfl
    | some r => rfl
  · unfold SQLAlchemyRepository.delete
    cases h : sessionGet db i with
    | none => exact Or.inl rfl
    | some r =>
      cases commitOk
      · exact Or.inl rfl
      · exact Or.inr rfl

/-- Helper: filtering the `exp` entry out of a claims dict does not change
    the `sub` lookup. -/
theorem find_sub_filter_exp (l : List (String × Option String)) :
    (l.filter (fun p => p.1 != "exp")).find? (fun p => p.1 == "sub")
      = l.find? (fun p => p.1 == "sub") := by
  induction l with
  | nil => rfl
  | cons hd tl ih =>
    by_cases h : hd.1 = "exp"
    · simp [List.filter_cons, List.find?_cons, h, ih]
    · by_cases h2 : hd.1 = "sub"
      · simp [List.filter_cons, List.find?_cons, h, h2]
      · simp [List.filter_cons, List.find?_cons, h, h2, ih]

/-- Helper: `dictGetSub` is unchanged by dropping the `exp` entry. -/
theorem dictGetSub_filter_exp (l : List (String × Option String)) :
    dictGetSub (l.filter (fun p => p.1 != "exp")) = dictGetSub l := by
  unfold dictGetSub
  rw [find_sub_filter_exp]

/-- Helper: decoding a token against its own key and algorithm reduces to
    the expiry check. -/
theorem jwtDecode_same_key (p : List (String × Option String)) (e : Int)
    (k a : String) (now : Int) :
    jwtDecode (.signed p e k a) k [a] now
      = if e < now then .error .expiredSignature else .ok p := by
  simp [jwtDecode]

/-- Helper: decoding with a mismatched key or algorithm raises `JWTError`. -/
theorem jwtDecode_wrong_key_or_alg (p : List (String × Option String)) (e : Int)
    (k a key alg : String) (now : Int) (h : k ≠ key ∨ a ≠ alg) :
    jwtDecode (.signed p e k a) key [alg] now = .error .jwtError := by
  rcases h with h | h
  · simp [jwtDecode, h]
  · have hab : (a == alg) = false := by
      simp [beq_eq_false_iff_ne, h]
    simp [jwtDecode, List.contains, List.elem, hab]

/-- C4: for claims carrying a subject and a positive ttl, validating the
    issued token before the expiry instant returns the subject, and
    validating it after the expiry instant fails with the expired-token
    401 (distinct from the generic invalid-credential error). -/
theorem token_roundtrip (data : List (String × Option String)) (sub : String)
    (settings : APISettings) (ttl now0 now1 now2 : Int)
    (hsub : dictGetSub data = some sub) (httl : 0 < ttl)
    (h1 : now1 < now0 + ttl) (h2 : now0 + ttl < now2) :
    get_current_username (create_access_token data (some ttl) now0 settings) now1 settings
      = .ok sub
    ∧ get_current_username (create_access_token data (some ttl) now0 settings) now2 settings
      = .error tokenExpiredExc := by
  have hts : timedeltaTruthy (some ttl) = true := by
    simp only [timedeltaTruthy, bne_iff_ne, ne_eq]
    omega
  have henc : create_access_token data (some ttl) now0 settings
      = .signed (data.filter (fun p => p.1 != "exp")) (now0 + ttl)
          settings.secret_key settings.algorithm := by
    unfold create_access_token jwtEncode
    rw [hts]
    simp
  have hd1 : jwtDecode (.signed (data.filter (fun p => p.1 != "exp")) (now0 + ttl)
        settings.secret_key settings.algorithm)
        settings.secret_key [settings.algorithm] now1
      = .ok (data.filter (fun p => p.1 != "exp")) := by
    rw [jwtDecode_same_key, if_neg (by omega)]
  have hd2 : jwtDecode (.signed (data.filter (fun p => p.1 != "exp")) (now0 + ttl)
        settings.secret_key settings.algorithm)
        settings.secret_key [settings.algorithm] now2
      = .error .expiredSignature := by
    rw [jwtDecode_same_key, if_pos (by omega)]
  have hsub2 : dictGetSub (data.filter (fun p => p.1 != "exp")) = some sub := by
    rw [dictGetSub_filter_exp]
    exact hsub
  constructor
  · rw [henc]
    unfold get_current_username
    rw [hd1]
    simp [hsub2, emptyDictTruthy]
  · rw [henc]
    unfold get_current_username
    rw [hd2]

/-- C4 witness: claims `sub = "alice"`, ttl of 1 second, issued at instant
    0; validation at instant 0 returns `"alice"`, validation at instant 2
    fails with the expired-token error. -/
theorem token_roundtrip_witness :
    get_current_username (create_access_token [("sub", some "alice")] (some 1) 0 settings0)
        0 settings0 = .ok "alice"
    ∧ get_current_username (create_access_token [("sub", some "alice")] (some 1) 0 settings0)
        2 settings0 = .error tokenExpiredExc :=
  token_roundtrip [("sub", some "alice")] "alice" settings0 1 0 0 2
    (by decide) (by decide) (by decide) (by decide)

/-- C10: a malformed token, a token signed with a different key or
    algorithm, or a well-verified unexpired token whose payload lacks a
    `sub` claim all fail with the generic invalid-credential 401, which is
    distinct from the expired-token error. -/
theorem invalid_token_rejected (settings : APISettings) (now : Int) (tok : JoseToken)
    (h : (∃ s, tok = .malformed s)
      ∨ (∃ p e k a, tok = .signed p e k a ∧ (k ≠ settings.secret_key ∨ a ≠ settings.algorithm))
      ∨ (∃ p e k a, tok = .signed p e k a ∧ k = settings.secret_key ∧ a = settings.algorithm
          ∧ now ≤ e ∧ dictGetSub p = none)) :
    get_current_username tok now settings = .error couldNotValidateExc
    ∧ couldNotValidateExc ≠ tokenExpiredExc := by
  refine ⟨?_, by decide⟩
  rcases h with ⟨s, rfl⟩ | ⟨p, e, k, a, rfl, hka⟩ | ⟨p, e, k, a, rfl, hk, ha, hge, hsubn⟩
  · rfl
  · unfold get_current_username
    rw [jwtDecode_wrong_key_or_alg p e k a settings.secret_key settings.algorithm now hka]
  · subst hk
    subst ha
    unfold get_current_username
    rw [jwtDecode_same_key, if_neg (by omega)]
    simp [hsubn, emptyDictTruthy]

/-- C10 witness: a malformed token is rejected with the generic
    invalid-credential error. -/
theorem invalid_token_rejected_witness :
    get_current_username (.malformed "not.a.jwt") 0 settings0 = .error couldNotValidateExc
    ∧ couldNotValidateExc ≠ tokenExpiredExc :=
  invalid_token_rejected settings0 0 (.malformed "not.a.jwt")
    (Or.inl ⟨"not.a.jwt", rfl⟩)

end AgroNet
